import Mathlib

/-!
Verification of the Yandex MCP server (`yandex_mcp.py`) against its
specification. The Python source is shallowly embedded: pure fragments
become Lean functions, the HTTP layer becomes an explicit network-outcome
parameter together with a boolean recording whether a request was issued,
and Python exceptions become an explicit error type. Python floats are
modelled as exact rationals; Python strings as Lean strings, with the
Python primitives `str.strip` / `str.split` modelled character-by-character
below so that all definitions evaluate inside the kernel.
-/

set_option maxRecDepth 20000

-- ==========================================================================
-- Configuration constants (yandex_mcp.py lines 24-30)
-- ==========================================================================

def YANDEX_DIRECT_API_URL : String := "https://api.direct.yandex.com/json/v5"

def YANDEX_DIRECT_API_URL_V501 : String := "https://api.direct.yandex.com/json/v501"

def YANDEX_DIRECT_SANDBOX_URL : String := "https://api-sandbox.direct.yandex.com/json/v5"

def YANDEX_METRIKA_API_URL : String := "https://api-metrika.yandex.net"

-- ==========================================================================
-- Python string primitives, modelled character-by-character.
-- `pyStrip` models `str.strip()` (whitespace at both ends); `pySplit`
-- models `str.split(sep)` for a one-character separator, which keeps
-- empty parts, and returns [""] on the empty string, as Python does.
-- ==========================================================================

def isPyWhitespace (c : Char) : Bool :=
  c = ' ' || c = '\t' || c = '\n' || c = '\x0d' || c = '\x0b' || c = '\x0c'

def pyStrip (s : String) : String :=
  String.mk (((s.data.dropWhile isPyWhitespace).reverse.dropWhile isPyWhitespace).reverse)

def splitOnChar (c : Char) : List Char → List (List Char)
  | [] => [[]]
  | x :: xs =>
    let r := splitOnChar c xs
    if x = c then [] :: r
    else
      match r with
      | h :: t => (x :: h) :: t
      | [] => [[x]]

def pySplit (s : String) (c : Char) : List String :=
  (splitOnChar c s.data).map String.mk

-- ==========================================================================
-- Credentials (YandexAPIClient.__init__, lines 116-136).
-- Environment reads become structure fields; Python `a or b` on strings
-- is `if a = "" then b else a` (the empty string is falsy).
-- ==========================================================================

structure Credentials where
  direct_token : String
  metrika_token : String
  unified_token : String
  client_login : String
  use_sandbox : Bool

def getDirectToken (c : Credentials) : String :=
  if c.direct_token = "" then c.unified_token else c.direct_token

def getMetrikaToken (c : Credentials) : String :=
  if c.metrika_token = "" then c.unified_token else c.metrika_token

def getDirectUrl (c : Credentials) (use_v501 : Bool) : String :=
  if c.use_sandbox then YANDEX_DIRECT_SANDBOX_URL
  else if use_v501 then YANDEX_DIRECT_API_URL_V501 else YANDEX_DIRECT_API_URL

-- ==========================================================================
-- Error taxonomy and the error classifier `_handle_api_error`
-- (lines 222-252). `httpStatus` models httpx.HTTPStatusError with the
-- vendor error body that `e.response.json()` would parse (none when the
-- body is unparseable or carries no "error" object); `valueError` models
-- ValueError; `other` models any remaining exception.
-- ==========================================================================

structure ErrorBody where
  error_string : String
  error_detail : String

inductive ApiError where
  | httpStatus (status : Nat) (body : Option ErrorBody)
  | timeout
  | valueError (msg : String)
  | other (typeName : String) (msg : String)

def error_messages (status : Nat) : Option String :=
  if status = 400 then some "Bad request. Check your parameters."
  else if status = 401 then some "Authentication failed. Check your API token."
  else if status = 403 then some "Access denied. Check permissions for this operation."
  else if status = 404 then some "Resource not found. Check the ID."
  else if status = 429 then some "Rate limit exceeded. Wait before making more requests."
  else if status = 500 then some "Server error. Try again later."
  else if status = 503 then some "Service unavailable. Try again later."
  else none

def handle_api_error : ApiError → String
  | .httpStatus status body =>
    let parsed : Option String :=
      match body with
      | some b =>
        if b.error_string != "" then
          some (pyStrip ("API Error (" ++ toString status ++ "): " ++
            b.error_string ++ ". " ++ b.error_detail))
        else none
      | none => none
    match parsed with
    | some s => s
    | none =>
      "API Error: " ++ (error_messages status).getD
        ("Request failed with status " ++ toString status)
  | .timeout => "Request timed out. The operation may still complete on the server."
  | .valueError msg => "Configuration Error: " ++ msg
  | .other typeName msg => "Unexpected error: " ++ typeName ++ ": " ++ msg

-- ==========================================================================
-- HTTP client entry points (lines 138-211). The network is an explicit
-- outcome parameter: `reply status errorBody body` is the vendor
-- response (with `body` the value `response.json()` would produce on the
-- success path and `errorBody` what the classifier would parse from an
-- error response); `timeout` is httpx.TimeoutException. Each embedded
-- call returns the result together with a Bool recording whether an HTTP
-- request was actually issued.
-- ==========================================================================

inductive NetOutcome (α : Type) where
  | reply (status : Nat) (errorBody : Option ErrorBody) (body : α)
  | timeout

/-- Embedding of `YandexAPIClient.direct_request` (lines 138-171): token check, then the
POST; `raise_for_status` raises on any non-2xx status. -/
def direct_request {α : Type} (c : Credentials) (net : NetOutcome α) :
    Except ApiError α × Bool :=
  if getDirectToken c = "" then
    (.error (.valueError ("Yandex Direct API token not configured. " ++
      "Set YANDEX_DIRECT_TOKEN or YANDEX_TOKEN environment variable.")), false)
  else
    match net with
    | .timeout => (.error .timeout, true)
    | .reply status errorBody body =>
      if 200 ≤ status ∧ status < 300 then (.ok body, true)
      else (.error (.httpStatus status errorBody), true)

/-- A Metrika response after the 204 normalization (lines 206-211):
`successFlag` is the `{"success": True}` value returned for 204. -/
inductive MetrikaResult (α : Type) where
  | successFlag
  | body (a : α)

/-- Embedding of `YandexAPIClient.metrika_request` (lines 173-211): token check, method
dispatch (an unsupported method raises ValueError before any request),
`raise_for_status`, and the 204 normalization. -/
def metrika_request {α : Type} (c : Credentials) (endpoint method : String)
    (net : NetOutcome α) : Except ApiError (MetrikaResult α) × Bool :=
  let _url := YANDEX_METRIKA_API_URL ++ endpoint
  if getMetrikaToken c = "" then
    (.error (.valueError ("Yandex Metrika API token not configured. " ++
      "Set YANDEX_METRIKA_TOKEN or YANDEX_TOKEN environment variable.")), false)
  else if method == "GET" || method == "POST" || method == "PUT" || method == "DELETE" then
    match net with
    | .timeout => (.error .timeout, true)
    | .reply status errorBody body =>
      if 200 ≤ status ∧ status < 300 then
        if status = 204 then (.ok .successFlag, true) else (.ok (.body body), true)
      else (.error (.httpStatus status errorBody), true)
  else (.error (.valueError ("Unsupported HTTP method: " ++ method)), false)

-- ==========================================================================
-- The generic tool pattern: every operation wraps its body in
-- try/except and returns `_handle_api_error(e)` on failure, so the
-- return type is always a plain string.
-- ==========================================================================

def runDirectTool {α : Type} (c : Credentials) (net : NetOutcome α)
    (onSuccess : α → String) : String × Bool :=
  match direct_request c net with
  | (.ok r, b) => (onSuccess r, b)
  | (.error e, b) => (handle_api_error e, b)

def runMetrikaTool {α : Type} (c : Credentials) (endpoint method : String)
    (net : NetOutcome α) (onSuccess : MetrikaResult α → String) : String × Bool :=
  match metrika_request c endpoint method net with
  | (.ok r, b) => (onSuccess r, b)
  | (.error e, b) => (handle_api_error e, b)

-- ==========================================================================
-- Monetary formatting. Python floats are modelled as exact rationals.
-- `pyIntFrac` is Python int() (truncation toward zero); `toMicros` is the
-- boundary conversion `int(v * 1_000_000)` (e.g. line 1322, 1772, 1826);
-- `formatTwoDec` is the f-string `f"{x:.2f}"` (round-half-even to two
-- decimals, as printf-style formatting of an exact value rounds);
-- `formatCommaTwoDec` is `f"{x:,.2f}"` (thousands separators in the
-- integer part); `renderMoney` is the display conversion
-- `f"{micros / 1_000_000:.2f}"` (lines 269-270, 343).
-- ==========================================================================

/-- Python `int()` applied to an exact fraction `n / d` (`d > 0`): truncation
toward zero. -/
def pyIntFrac (n d : ℤ) : ℤ := n.tdiv d

/-- Model of `int(v * 1_000_000)` computed on the exact fraction `v = num / den`. -/
def toMicros (q : ℚ) : ℤ := pyIntFrac (1000000 * q.num) (q.den : ℤ)

/-- Round-half-even of the exact fraction `n / d` (`d > 0`): `n / d` is
`⌊n / d⌋ + r / d` with `r = n % d`, and the fraction part is compared
with one half by cross-multiplication. -/
def roundHalfEvenFrac (n d : ℤ) : ℤ :=
  let fl := n / d
  let r := n % d
  if d < 2 * r then fl + 1
  else if 2 * r < d then fl
  else if fl % 2 = 0 then fl else fl + 1

def round2HalfEven (q : ℚ) : ℤ := roundHalfEvenFrac (100 * q.num) (q.den : ℤ)

def twoDecDigits (k : ℕ) : String :=
  (if k % 100 < 10 then "0" else "") ++ toString (k % 100)

def formatTwoDec (q : ℚ) : String :=
  let m := round2HalfEven q
  let sign := if m < 0 then "-" else ""
  sign ++ toString (m.natAbs / 100) ++ "." ++ twoDecDigits m.natAbs

def commaRev : List Char → List Char
  | a :: b :: c :: d :: rest => a :: b :: c :: ',' :: commaRev (d :: rest)
  | l => l

def commaGroup (n : ℕ) : String :=
  String.mk (commaRev (toString n).data.reverse).reverse

def formatCommaTwoDec (q : ℚ) : String :=
  let m := round2HalfEven q
  let sign := if m < 0 then "-" else ""
  sign ++ commaGroup (m.natAbs / 100) ++ "." ++ twoDecDigits m.natAbs

def renderMoney (micros : ℤ) : String :=
  formatTwoDec (Rat.divInt micros 1000000)

-- ==========================================================================
-- Batch management results. A per-item result from the vendor carries an
-- optional "Id" and a list of "Errors" (each with an optional "Message");
-- `idTruthy` is the Python truthiness test `if r.get("Id"):` (0 and absence are falsy),
-- `itemErrorLines` is the itemization
-- building "ID <id-or-question-mark>: <message-or-Unknown error>" per error entry.
-- ==========================================================================

structure ErrItem where
  message : Option String

structure ActionResultItem where
  id : Option Int
  errors : List ErrItem

def idTruthy (r : ActionResultItem) : Bool :=
  match r.id with
  | some n => n != 0
  | none => false

def idDisplay (r : ActionResultItem) : String :=
  match r.id with
  | some n => toString n
  | none => "?"

def itemErrorLines (r : ActionResultItem) : List String :=
  if r.errors.isEmpty then []
  else r.errors.map (fun e => "ID " ++ idDisplay r ++ ": " ++ e.message.getD "Unknown error")

/-- The error list accumulated by the `for r in results:` loops. -/
def batchErrors (rs : List ActionResultItem) : List String :=
  rs.flatMap itemErrorLines

/-- Success list of `direct_suspend_campaigns` / `direct_resume_campaigns`
(lines 1089-1093, 1137-1141): an item counts as soon as its "Id" is
truthy, even when it also carries "Errors". -/
def looseSuccessIds (rs : List ActionResultItem) : List Int :=
  rs.filterMap (fun r => if idTruthy r then some (r.id.getD 0) else none)

/-- Success list of the remaining batch operations,
`[r["Id"] for r in results if r.get("Id") and not r.get("Errors")]`
used by the remaining batch operations. -/
def strictSuccessIds (rs : List ActionResultItem) : List Int :=
  rs.filterMap (fun r => if idTruthy r && r.errors.isEmpty then some (r.id.getD 0) else none)

/-- The fragment `response += "\n\nErrors:\n" + "\n".join(f"- {e}" for e in errors)`,
appended only when `errors` is non-empty; this exact fragment is repeated
verbatim by the eight error-reporting batch operations. -/
def errorsBlock (response : String) (errors : List String) : String :=
  if errors.isEmpty then response
  else response ++ "\n\nErrors:\n" ++
    String.intercalate "\n" (errors.map (fun e => "- " ++ e))

/-- Success-path rendering of `direct_suspend_campaigns` (lines 1086-1101). -/
def direct_suspend_campaigns_render (rs : List ActionResultItem) : String :=
  errorsBlock
    ("Successfully suspended " ++ toString (looseSuccessIds rs).length ++ " campaign(s).")
    (batchErrors rs)

/-- Success-path rendering of `direct_resume_campaigns` (lines 1134-1149). -/
def direct_resume_campaigns_render (rs : List ActionResultItem) : String :=
  errorsBlock
    ("Successfully resumed " ++ toString (looseSuccessIds rs).length ++ " campaign(s).")
    (batchErrors rs)

/-- Success-path rendering of `direct_archive_campaigns` (lines 1182-1195). -/
def direct_archive_campaigns_render (rs : List ActionResultItem) : String :=
  errorsBlock
    ("Successfully archived " ++ toString (strictSuccessIds rs).length ++ " campaign(s).")
    (batchErrors rs)

/-- Success-path rendering of `direct_unarchive_campaigns` (lines 1227-1240). -/
def direct_unarchive_campaigns_render (rs : List ActionResultItem) : String :=
  errorsBlock
    ("Successfully unarchived " ++ toString (strictSuccessIds rs).length ++ " campaign(s).")
    (batchErrors rs)

/-- Success-path rendering of `direct_delete_campaigns` (lines 1273-1286). -/
def direct_delete_campaigns_render (rs : List ActionResultItem) : String :=
  errorsBlock
    ("Successfully deleted " ++ toString (strictSuccessIds rs).length ++ " campaign(s).")
    (batchErrors rs)

/-- Success-path rendering of `direct_suspend_ads` (lines 1645-1650): only
the success summary, no error itemization is built. -/
def direct_suspend_ads_render (rs : List ActionResultItem) : String :=
  "Successfully suspended " ++ toString (strictSuccessIds rs).length ++ " ad(s)."

/-- Success-path rendering of `direct_resume_ads` (lines 1680-1685): only
the success summary, no error itemization is built. -/
def direct_resume_ads_render (rs : List ActionResultItem) : String :=
  "Successfully resumed " ++ toString (strictSuccessIds rs).length ++ " ad(s)."

/-- Success-path rendering of `direct_delete_ads` (lines 2165-2178). -/
def direct_delete_ads_render (rs : List ActionResultItem) : String :=
  errorsBlock
    ("Successfully deleted " ++ toString (strictSuccessIds rs).length ++ " ad(s).")
    (batchErrors rs)

/-- Success-path rendering of `direct_archive_ads` (lines 2210-2223). -/
def direct_archive_ads_render (rs : List ActionResultItem) : String :=
  errorsBlock
    ("Successfully archived " ++ toString (strictSuccessIds rs).length ++ " ad(s).")
    (batchErrors rs)

/-- Success-path rendering of `direct_unarchive_ads` (lines 2255-2268). -/
def direct_unarchive_ads_render (rs : List ActionResultItem) : String :=
  errorsBlock
    ("Successfully unarchived " ++ toString (strictSuccessIds rs).length ++ " ad(s).")
    (batchErrors rs)

-- The shape of a vendor result list assumed by the batch-operation claim:
-- every per-item result is either a success (a non-zero "Id" and no
-- "Errors") or a per-item error (no "Id", exactly one error entry).

def isSuccessItem (r : ActionResultItem) : Bool :=
  idTruthy r && r.errors.isEmpty

def isErrorItem (r : ActionResultItem) : Bool :=
  r.id.isNone && r.errors.length == 1

def vendorBatchShape (rs : List ActionResultItem) : Prop :=
  ∀ r ∈ rs, isSuccessItem r = true ∨ isErrorItem r = true

instance (rs : List ActionResultItem) : Decidable (vendorBatchShape rs) :=
  List.decidableBAll _ rs

def successCount (rs : List ActionResultItem) : ℕ :=
  (rs.filter isSuccessItem).length

-- ==========================================================================
-- Response formatters (lines 255-417). Vendor JSON dictionaries become
-- structures with Option fields (absent key = none); `d.get(k, default)`
-- becomes `Option.getD`; an f-string interpolation of a missing key
-- (Python `None`) renders as "None".
-- ==========================================================================

def pyOptInt : Option Int → String
  | some n => toString n
  | none => "None"

structure DailyBudget where
  amount : Int
  mode : Option String

structure CampaignStats where
  clicks : Int
  impressions : Int

structure Campaign where
  name : Option String
  id : Option Int
  ctype : Option String
  state : Option String
  status : Option String
  dailyBudget : Option DailyBudget
  statistics : Option CampaignStats

/-- Per-campaign lines of `_format_campaigns_markdown` (lines 261-277). -/
def campaignLines (camp : Campaign) : List String :=
  ["## " ++ camp.name.getD "Unnamed" ++ " (ID: " ++ pyOptInt camp.id ++ ")",
   "- **Type**: " ++ camp.ctype.getD "N/A",
   "- **State**: " ++ camp.state.getD "N/A",
   "- **Status**: " ++ camp.status.getD "N/A"] ++
  (match camp.dailyBudget with
   | some budget =>
     ["- **Daily Budget**: " ++ formatTwoDec (Rat.divInt budget.amount 1000000) ++
      " (" ++ budget.mode.getD "N/A" ++ ")"]
   | none => []) ++
  (match camp.statistics with
   | some stats =>
     ["- **Clicks**: " ++ toString stats.clicks,
      "- **Impressions**: " ++ toString stats.impressions]
   | none => []) ++
  [""]

/-- Embedding of `_format_campaigns_markdown` (lines 255-279). -/
def formatCampaignsMarkdown (campaigns : List Campaign) : String :=
  if campaigns.isEmpty then "No campaigns found."
  else String.intercalate "\n" (["# Campaigns\n"] ++ campaigns.flatMap campaignLines)

structure TextAd where
  title : Option String
  title2 : Option String
  text : Option String
  href : Option String

structure Ad where
  id : Option Int
  adGroupId : Option Int
  campaignId : Option Int
  state : Option String
  status : Option String
  textAd : Option TextAd

/-- Per-ad lines of `_format_ads_markdown` (lines 288-303). -/
def adLines (ad : Ad) : List String :=
  ["## Ad ID: " ++ pyOptInt ad.id,
   "- **AdGroup ID**: " ++ pyOptInt ad.adGroupId,
   "- **Campaign ID**: " ++ pyOptInt ad.campaignId,
   "- **State**: " ++ ad.state.getD "N/A",
   "- **Status**: " ++ ad.status.getD "N/A"] ++
  (match ad.textAd with
   | some text_ad =>
     ["- **Title**: " ++ text_ad.title.getD "N/A",
      "- **Title2**: " ++ text_ad.title2.getD "N/A",
      "- **Text**: " ++ text_ad.text.getD "N/A",
      "- **Href**: " ++ text_ad.href.getD "N/A"]
   | none => []) ++
  [""]

/-- Embedding of `_format_ads_markdown` (lines 282-305). -/
def formatAdsMarkdown (ads : List Ad) : String :=
  if ads.isEmpty then "No ads found."
  else String.intercalate "\n" (["# Ads\n"] ++ ads.flatMap adLines)

structure AdGroup where
  name : Option String
  id : Option Int
  campaignId : Option Int
  gtype : Option String
  status : Option String
  regionIds : List Int

/-- Per-group lines of `_format_adgroups_markdown` (lines 314-324). -/
def adGroupLines (group : AdGroup) : List String :=
  ["## " ++ group.name.getD "Unnamed" ++ " (ID: " ++ pyOptInt group.id ++ ")",
   "- **Campaign ID**: " ++ pyOptInt group.campaignId,
   "- **Type**: " ++ group.gtype.getD "N/A",
   "- **Status**: " ++ group.status.getD "N/A"] ++
  (if group.regionIds.isEmpty then []
   else ["- **Regions**: " ++ String.intercalate ", " (group.regionIds.map toString)]) ++
  [""]

/-- Embedding of `_format_adgroups_markdown` (lines 308-326). -/
def formatAdGroupsMarkdown (groups : List AdGroup) : String :=
  if groups.isEmpty then "No ad groups found."
  else String.intercalate "\n" (["# Ad Groups\n"] ++ groups.flatMap adGroupLines)

structure Keyword where
  keyword : Option String
  id : Option Int
  adGroupId : Option Int
  state : Option String
  status : Option String
  bid : Option Int

/-- Per-keyword lines of `_format_keywords_markdown` (lines 335-345);
`bid = kw.get("Bid", 0); if bid:` keeps the bid line only for a non-zero bid. -/
def keywordLines (kw : Keyword) : List String :=
  ["## " ++ kw.keyword.getD "N/A" ++ " (ID: " ++ pyOptInt kw.id ++ ")",
   "- **AdGroup ID**: " ++ pyOptInt kw.adGroupId,
   "- **State**: " ++ kw.state.getD "N/A",
   "- **Status**: " ++ kw.status.getD "N/A"] ++
  (let bid := kw.bid.getD 0
   if bid ≠ 0 then ["- **Bid**: " ++ formatTwoDec (Rat.divInt bid 1000000)] else []) ++
  [""]

/-- Embedding of `_format_keywords_markdown` (lines 329-347). -/
def formatKeywordsMarkdown (keywords : List Keyword) : String :=
  if keywords.isEmpty then "No keywords found."
  else String.intercalate "\n" (["# Keywords\n"] ++ keywords.flatMap keywordLines)

structure CounterSite where
  site : Option String

structure Counter where
  name : Option String
  id : Option Int
  site2 : Option CounterSite
  status : Option String
  code_status : Option String
  owner_login : Option String
  favorite : Option Int

/-- Per-counter lines of `_format_metrika_counters_markdown` (lines 356-368). -/
def counterLines (counter : Counter) : List String :=
  ["## " ++ counter.name.getD "Unnamed" ++ " (ID: " ++ pyOptInt counter.id ++ ")",
   "- **Site**: " ++ (match counter.site2 with
                      | some s2 => s2.site.getD "N/A"
                      | none => "N/A"),
   "- **Status**: " ++ counter.status.getD "N/A",
   "- **Code Status**: " ++ counter.code_status.getD "N/A",
   "- **Owner**: " ++ counter.owner_login.getD "N/A"] ++
  (if counter.favorite.getD 0 ≠ 0 then ["- **Favorite**: ⭐"] else []) ++
  [""]

/-- Embedding of `_format_metrika_counters_markdown` (lines 350-370). -/
def formatMetrikaCountersMarkdown (counters : List Counter) : String :=
  if counters.isEmpty then "No counters found."
  else String.intercalate "\n" (["# Metrika Counters\n"] ++ counters.flatMap counterLines)

-- ==========================================================================
-- Metrika report formatter `_format_metrika_report_markdown`
-- (lines 373-417) and the inline time-series formatter of
-- `metrika_get_report_by_time` (lines 2653-2684).
-- ==========================================================================

structure MetrikaQuery where
  date1 : Option String
  date2 : Option String
  dimensions : List String
  metrics : List String

/-- A dimension value: a vendor dictionary with "name"/"id", or any other
JSON value rendered through `str(d)` (the `isinstance(d, dict)` branch). -/
inductive DimValue where
  | dict (name : Option String) (id : Option String)
  | raw (s : String)

def renderDim : DimValue → String
  | .dict name id => name.getD (id.getD "N/A")
  | .raw s => s

structure ReportRow where
  dimensions : List DimValue
  metrics : List ℚ

structure ReportData where
  query : MetrikaQuery
  totals : List ℚ
  data : List ReportRow

/-- The "## Query Parameters" block (lines 377-386). -/
def reportQueryLines (query : MetrikaQuery) : List String :=
  ["## Query Parameters",
   "- **Period**: " ++ query.date1.getD "N/A" ++ " — " ++ query.date2.getD "N/A"] ++
  (if query.dimensions.isEmpty then []
   else ["- **Dimensions**: " ++ String.intercalate ", " query.dimensions]) ++
  (if query.metrics.isEmpty then []
   else ["- **Metrics**: " ++ String.intercalate ", " query.metrics]) ++
  [""]

/-- The "## Totals" block (lines 389-396): each total is paired with the
requested metric name positionally, falling back to "Metric i+1". -/
def reportTotalsLines (metrics : List String) (totals : List ℚ) : List String :=
  if totals.isEmpty then []
  else ["## Totals"] ++
    totals.enum.map (fun p =>
      "- **" ++ metrics.getD p.1 ("Metric " ++ toString (p.1 + 1)) ++ "**: " ++
      formatCommaTwoDec p.2) ++
    [""]

/-- One data-row line (lines 402-412). -/
def renderReportRow (row : ReportRow) : String :=
  let dim_str := if row.dimensions.isEmpty then "Total"
                 else String.intercalate " / " (row.dimensions.map renderDim)
  let metrics_str := String.intercalate ", " (row.metrics.map formatCommaTwoDec)
  "- **" ++ dim_str ++ "**: " ++ metrics_str

def reportHead (d : ReportData) : List String :=
  ["# Metrika Report\n"] ++ reportQueryLines d.query ++
  reportTotalsLines d.query.metrics d.totals

/-- The "## Data" block (lines 399-415): at most 50 rows, then a
"...and N more rows" trailer. -/
def reportDataLines (d : ReportData) : List String :=
  if d.data.isEmpty then []
  else ["## Data (" ++ toString d.data.length ++ " rows)"] ++
    (d.data.take 50).map renderReportRow ++
    (if 50 < d.data.length then
      ["\n*...and " ++ toString (d.data.length - 50) ++ " more rows*"]
     else [])

/-- Embedding of `_format_metrika_report_markdown` (lines 373-417). -/
def formatMetrikaReportMarkdown (d : ReportData) : String :=
  String.intercalate "\n" (reportHead d ++ reportDataLines d)

inductive TInterval where
  | list (l : List String)
  | scalar (s : String)

def renderTInterval : TInterval → String
  | .list l => String.intercalate " — " l
  | .scalar s => s

structure ByTimeRow where
  dimensions : List DimValue
  metrics : Option (List (List ℚ))

structure ByTimeData where
  query : MetrikaQuery
  time_intervals : List TInterval
  data : List ByTimeRow

/-- Per-row block of the time-series formatter (lines 2663-2682):
`metrics = row.get("metrics", [[]])`, one line per time interval with the
i-th value of each metric series (0 when the series is too short). -/
def byTimeRowLines (tis : List TInterval) (row : ByTimeRow) : List String :=
  let metrics := row.metrics.getD [[]]
  let dim_str := if row.dimensions.isEmpty then "Total"
                 else String.intercalate " / " (row.dimensions.map renderDim)
  ["## " ++ dim_str] ++
  (if tis.isEmpty || metrics.isEmpty then []
   else tis.enum.map (fun p =>
     let values := metrics.map (fun m => m.getD p.1 0)
     "- " ++ renderTInterval p.2 ++ ": " ++
     String.intercalate ", " (values.map formatCommaTwoDec))) ++
  [""]

/-- The inline markdown rendering of `metrika_get_report_by_time`
(lines 2653-2684); `group` is `params.group.value`. -/
def formatByTimeMarkdown (group : String) (d : ByTimeData) : String :=
  String.intercalate "\n"
    (["# Time-Based Report\n",
      "**Period**: " ++ d.query.date1.getD "N/A" ++ " — " ++ d.query.date2.getD "N/A",
      "**Grouping**: " ++ group ++ "\n"] ++
     (if d.data.isEmpty then [] else d.data.flatMap (byTimeRowLines d.time_intervals)))

-- ==========================================================================
-- Ads statistics report `direct_get_statistics` (lines 1856-1964).
-- The model covers the markdown output branch (the default
-- `response_format`); the request-building side (report definition,
-- headers) shapes only the outgoing request and is not observable in the
-- response processing embedded here.
-- ==========================================================================

structure DirectReportInput where
  date_from : String
  date_to : String
  report_type : String

/-- The split `lines = response.text.strip().split("\n")` (line 1928). -/
def statLines (text : String) : List String :=
  pySplit (pyStrip text) '\n'

/-- The comprehension `data_rows = [line.split("\t") for line in lines[1:] if line.strip()]`
(line 1933). -/
def statDataRows (rest : List String) : List (List String) :=
  (rest.filter (fun line => pyStrip line != "")).map (fun line => pySplit line '\t')

/-- The fixed markdown lines before the data rows (lines 1942-1947). -/
def statMdHead (p : DirectReportInput) (header : List String) : List String :=
  ["# Direct Statistics Report\n",
   "**Period**: " ++ p.date_from ++ " — " ++ p.date_to,
   "**Report type**: " ++ p.report_type ++ "\n",
   "| " ++ String.intercalate " | " header ++ " |",
   "| " ++ String.intercalate " | " (List.replicate header.length "---") ++ " |"]

def statRowLine (row : List String) : String :=
  "| " ++ String.intercalate " | " row ++ " |"

/-- The markdown table for a body with at least a header line
(lines 1932-1955): at most 100 rows, then a "...and N more rows" trailer. -/
def formatStatisticsTable (p : DirectReportInput) (hdr : String)
    (rest : List String) : String :=
  let header := pySplit hdr '\t'
  let data_rows := statDataRows rest
  String.intercalate "\n"
    (statMdHead p header ++
     (data_rows.take 100).map statRowLine ++
     (if 100 < data_rows.length then
       ["\n*...and " ++ toString (data_rows.length - 100) ++ " more rows*"]
      else []))

/-- The 200-status branch (lines 1926-1955): fewer than two lines after
stripping means "no data". -/
def formatStatistics200 (p : DirectReportInput) (text : String) : String :=
  let lines := statLines text
  if lines.length < 2 then "No data found for the specified period."
  else formatStatisticsTable p (lines.headD "") lines.tail

/-- Embedding of `direct_get_statistics` (lines 1880-1964): its own token check (lines
1904-1906), then the status dispatch of lines 1926-1961. A 2xx status
other than 200/201/202 makes the Python function fall off the end and
return `None`, modelled as `none`. -/
def direct_get_statistics (c : Credentials) (p : DirectReportInput)
    (net : NetOutcome String) : Option String × Bool :=
  if getDirectToken c = "" then
    (some (handle_api_error (.valueError "Yandex Direct API token not configured.")), false)
  else
    match net with
    | .timeout => (some (handle_api_error .timeout), true)
    | .reply status errorBody text =>
      if status = 200 then (some (formatStatistics200 p text), true)
      else if status = 201 || status = 202 then
        (some "Report is being generated. Please try again in a few seconds.", true)
      else if 200 ≤ status ∧ status < 300 then (none, true)
      else (some (handle_api_error (.httpStatus status errorBody)), true)

-- ==========================================================================
-- `direct_update_ad` (lines 2037-2090) with its pydantic input model
-- `UpdateTextAdInput` (lines 785-811; `str_strip_whitespace=True` strips
-- every string field at validation).
-- ==========================================================================

structure UpdateTextAdParams where
  ad_id : Int
  title : Option String
  title2 : Option String
  text : Option String
  href : Option String

/-- The `str_strip_whitespace=True` normalization applied by validation. -/
def stripUpdateTextAd (p : UpdateTextAdParams) : UpdateTextAdParams :=
  { p with
    title := p.title.map pyStrip
    title2 := p.title2.map pyStrip
    text := p.text.map pyStrip
    href := p.href.map pyStrip }

/-- The `text_ad_update` dictionary built field by field (lines 2051-2060):
a field is included only when truthy (present and non-empty). -/
def updateTextAdFields (p : UpdateTextAdParams) : List (String × String) :=
  (match p.title with
   | some s => if s != "" then [("Title", s)] else []
   | none => []) ++
  (match p.title2 with
   | some s => if s != "" then [("Title2", s)] else []
   | none => []) ++
  (match p.text with
   | some s => if s != "" then [("Text", s)] else []
   | none => []) ++
  (match p.href with
   | some s => if s != "" then [("Href", s)] else []
   | none => [])

structure UpdateResultItem where
  errors : List ErrItem
  warnings : List ErrItem

/-- The error/warning accumulation and final message (lines 2077-2087). -/
def renderUpdateAdResults (ad_id : Int) (urs : List UpdateResultItem) : String :=
  let errors := urs.flatMap (fun r =>
    (if r.errors.isEmpty then []
     else r.errors.map (fun e => e.message.getD "Unknown error")) ++
    (if r.warnings.isEmpty then []
     else r.warnings.map (fun w => "Warning: " ++ w.message.getD "Unknown warning")))
  if errors.isEmpty then
    "Ad " ++ toString ad_id ++
    " updated successfully. Note: Submit for moderation using direct_moderate_ads."
  else
    "Update completed with issues:\n" ++
    String.intercalate "\n" (errors.map (fun e => "- " ++ e))

/-- Embedding of `direct_update_ad` (lines 2037-2090): when no field survives the
truthiness check the operation returns before any client call. -/
def direct_update_ad (c : Credentials) (p : UpdateTextAdParams)
    (net : NetOutcome (List UpdateResultItem)) : String × Bool :=
  let text_ad_update := updateTextAdFields p
  if text_ad_update.isEmpty then ("No fields specified for update.", false)
  else
    match direct_request c net with
    | (.ok urs, b) => (renderUpdateAdResults p.ad_id urs, b)
    | (.error e, b) => (handle_api_error e, b)

-- ==========================================================================
-- `metrika_delete_counter` (lines 2700-2720).
-- ==========================================================================

def metrika_delete_counter (c : Credentials) (counter_id : Int)
    (net : NetOutcome Unit) : String × Bool :=
  match metrika_request c ("/management/v1/counter/" ++ toString counter_id)
      "DELETE" net with
  | (.ok _, b) => ("Counter " ++ toString counter_id ++ " deleted successfully.", b)
  | (.error e, b) => (handle_api_error e, b)

-- ==========================================================================
-- Theorems
-- ==========================================================================

/-- C10: base-URL selection of the ads client (`_get_direct_url`, lines
132-136): when the sandbox flag is set the sandbox host is used regardless
of the alternate-version flag; otherwise the v501 host is chosen exactly
when `use_v501` holds; the three hosts are pairwise distinct and the
result is always one of them. -/
theorem spec_c10_base_url_selection :
    (∀ (c : Credentials) (v : Bool), c.use_sandbox = true →
       getDirectUrl c v = YANDEX_DIRECT_SANDBOX_URL) ∧
    (∀ (c : Credentials) (v : Bool), c.use_sandbox = false →
       getDirectUrl c v =
         if v then YANDEX_DIRECT_API_URL_V501 else YANDEX_DIRECT_API_URL) ∧
    (YANDEX_DIRECT_API_URL ≠ YANDEX_DIRECT_API_URL_V501 ∧
     YANDEX_DIRECT_API_URL ≠ YANDEX_DIRECT_SANDBOX_URL ∧
     YANDEX_DIRECT_API_URL_V501 ≠ YANDEX_DIRECT_SANDBOX_URL) ∧
    (∀ (c : Credentials) (v : Bool),
       getDirectUrl c v ∈ [YANDEX_DIRECT_API_URL, YANDEX_DIRECT_API_URL_V501,
                           YANDEX_DIRECT_SANDBOX_URL]) := by
  refine ⟨?_, ?_, ⟨by decide, by decide, by decide⟩, ?_⟩
  · intro c v h; simp [getDirectUrl, h]
  · intro c v h; simp [getDirectUrl, h]
  · intro c v
    unfold getDirectUrl
    split_ifs <;> simp

/-- Witness for C10 at concrete flag values: sandbox on (with the
alternate-version flag also on) selects the sandbox host; sandbox off with
the alternate-version flag selects the v501 host. -/
theorem spec_c10_witness :
    getDirectUrl ⟨"t", "", "", "", true⟩ true = YANDEX_DIRECT_SANDBOX_URL ∧
    getDirectUrl ⟨"t", "", "", "", false⟩ true = YANDEX_DIRECT_API_URL_V501 := by
  constructor
  · exact spec_c10_base_url_selection.1 ⟨"t", "", "", "", true⟩ true rfl
  · have h := spec_c10_base_url_selection.2.1 ⟨"t", "", "", "", false⟩ true rfl
    simpa using h

/-- C8: deleting counter 555 against a vendor 204 No Content response:
the 204 is normalized to the success value and the operation returns
exactly "Counter 555 deleted successfully." (one request was issued). -/
theorem spec_c8_delete_counter_204 :
    metrika_delete_counter ⟨"", "token", "", "", false⟩ 555 (.reply 204 none ()) =
      ("Counter 555 deleted successfully.", true) ∧
    (metrika_request ⟨"", "token", "", "", false⟩ "/management/v1/counter/555"
        "DELETE" (NetOutcome.reply 204 none ())).1 =
      .ok MetrikaResult.successFlag := by
  exact ⟨by decide, rfl⟩

/-- C5 (amended): the five entity-list formatters render their fixed
"No X found." sentence on an empty collection; the analytics tabular and
time-series report formatters instead render a report header with query
metadata when the report data is empty. -/
theorem spec_c5_empty_formatting :
    formatCampaignsMarkdown [] = "No campaigns found." ∧
    formatAdsMarkdown [] = "No ads found." ∧
    formatAdGroupsMarkdown [] = "No ad groups found." ∧
    formatKeywordsMarkdown [] = "No keywords found." ∧
    formatMetrikaCountersMarkdown [] = "No counters found." ∧
    formatMetrikaReportMarkdown ⟨⟨none, none, [], []⟩, [], []⟩ =
      "# Metrika Report\n\n## Query Parameters\n- **Period**: N/A — N/A\n" ∧
    formatByTimeMarkdown "day" ⟨⟨none, none, [], []⟩, [], []⟩ =
      "# Time-Based Report\n\n**Period**: N/A — N/A\n**Grouping**: day\n" := by
  exact ⟨rfl, rfl, rfl, rfl, rfl, by decide, by decide⟩

/-- C5 counterexample: the analytics tabular-report formatter applied to an
empty report (no totals, no rows, empty query) yields a query-parameter
header, not a sentence of the form "No X found." (its first three
characters are "# M", not "No "). -/
theorem spec_c5_cex :
    formatMetrikaReportMarkdown ⟨⟨none, none, [], []⟩, [], []⟩ =
      "# Metrika Report\n\n## Query Parameters\n- **Period**: N/A — N/A\n" ∧
    (formatMetrikaReportMarkdown ⟨⟨none, none, [], []⟩, [], []⟩).data.take 3 ≠
      ['N', 'o', ' '] := by
  exact ⟨by decide, by decide⟩

/-- C6 (amended): for an HTTP status error without a parseable vendor
error body, the classifier prepends "API Error: " to the status-keyed
canned message for the seven listed statuses, and yields
"API Error: Request failed with status <status>" for every other status;
the canned table is defined exactly on that seven-element set. -/
theorem spec_c6_canned_status_messages :
    (∀ (status : Nat) (msg : String), error_messages status = some msg →
       handle_api_error (.httpStatus status none) = "API Error: " ++ msg) ∧
    (∀ status : Nat, status ∉ ([400, 401, 403, 404, 429, 500, 503] : List Nat) →
       error_messages status = none ∧
       handle_api_error (.httpStatus status none) =
         "API Error: Request failed with status " ++ toString status) ∧
    (∀ status ∈ ([400, 401, 403, 404, 429, 500, 503] : List Nat),
       ∃ msg, error_messages status = some msg) := by
  refine ⟨?_, ?_, ?_⟩
  · intro status msg h
    simp [handle_api_error, h]
  · intro status h
    simp only [List.mem_cons, List.not_mem_nil, or_false, not_or] at h
    obtain ⟨h1, h2, h3, h4, h5, h6, h7⟩ := h
    have hnone : error_messages status = none := by
      unfold error_messages
      simp [h1, h2, h3, h4, h5, h6, h7]
    refine ⟨hnone, ?_⟩
    simp only [handle_api_error, hnone, Option.getD_none]
    rw [← String.append_assoc]
    rfl
  · intro status h
    fin_cases h <;> exact ⟨_, rfl⟩

/-- C6 counterexample: at status 418 (outside the canned set, no parseable
body) the classifier returns "API Error: Request failed with status 418",
which is not the bare string "Request failed with status 418" the claim
states. -/
theorem spec_c6_cex :
    error_messages 418 = none ∧
    handle_api_error (.httpStatus 418 none) =
      "API Error: Request failed with status 418" ∧
    handle_api_error (.httpStatus 418 none) ≠ "Request failed with status 418" := by
  exact ⟨rfl, by decide, by decide⟩

/-- Witness for C6 at concrete statuses: 400 is in the canned table and
maps to its canned message; 999 is outside and maps to the generic
message. -/
theorem spec_c6_witness :
    error_messages 400 = some "Bad request. Check your parameters." ∧
    handle_api_error (.httpStatus 400 none) =
      "API Error: " ++ "Bad request. Check your parameters." ∧
    (999 : Nat) ∉ ([400, 401, 403, 404, 429, 500, 503] : List Nat) ∧
    handle_api_error (.httpStatus 999 none) =
      "API Error: Request failed with status 999" := by
  refine ⟨rfl, spec_c6_canned_status_messages.1 400 _ rfl, by decide, ?_⟩
  exact (spec_c6_canned_status_messages.2.1 999 (by decide)).2

/-- C2: when both the service-specific token and the unified fallback
token are empty, every operation — any Direct tool, any Metrika tool, and
the statistics report with its own token check — returns a string
beginning with "Configuration Error: " and issues no network request. -/
theorem spec_c2_missing_token :
    (∀ (α : Type) (c : Credentials) (net : NetOutcome α) (onSuccess : α → String),
       c.direct_token = "" → c.unified_token = "" →
       (runDirectTool c net onSuccess).2 = false ∧
       ∃ rest, (runDirectTool c net onSuccess).1 = "Configuration Error: " ++ rest) ∧
    (∀ (α : Type) (c : Credentials) (endpoint method : String) (net : NetOutcome α)
       (onSuccess : MetrikaResult α → String),
       c.metrika_token = "" → c.unified_token = "" →
       (runMetrikaTool c endpoint method net onSuccess).2 = false ∧
       ∃ rest, (runMetrikaTool c endpoint method net onSuccess).1 =
         "Configuration Error: " ++ rest) ∧
    (∀ (c : Credentials) (p : DirectReportInput) (net : NetOutcome String),
       c.direct_token = "" → c.unified_token = "" →
       (direct_get_statistics c p net).2 = false ∧
       ∃ rest, (direct_get_statistics c p net).1 =
         some ("Configuration Error: " ++ rest)) := by
  refine ⟨?_, ?_, ?_⟩
  · intro α c net onSuccess h1 h2
    have htok : getDirectToken c = "" := by simp [getDirectToken, h1, h2]
    unfold runDirectTool direct_request
    rw [if_pos htok]
    exact ⟨rfl, _, rfl⟩
  · intro α c endpoint method net onSuccess h1 h2
    have htok : getMetrikaToken c = "" := by simp [getMetrikaToken, h1, h2]
    unfold runMetrikaTool metrika_request
    rw [if_pos htok]
    exact ⟨rfl, _, rfl⟩
  · intro c p net h1 h2
    have htok : getDirectToken c = "" := by simp [getDirectToken, h1, h2]
    unfold direct_get_statistics
    rw [if_pos htok]
    exact ⟨rfl, _, rfl⟩

/-- Witness for C2 at fully empty credentials, a 200 network outcome and a
trivial success continuation, for the Direct tool pattern, the Metrika
tool pattern, and the statistics operation. -/
theorem spec_c2_witness :
    ((runDirectTool ⟨"", "", "", "", false⟩ (NetOutcome.reply 200 none ())
        (fun _ => "ok")).2 = false ∧
     ∃ rest, (runDirectTool ⟨"", "", "", "", false⟩ (NetOutcome.reply 200 none ())
        (fun _ => "ok")).1 = "Configuration Error: " ++ rest) ∧
    ((runMetrikaTool ⟨"", "", "", "", false⟩ "/e" "GET" (NetOutcome.reply 200 none ())
        (fun _ => "ok")).2 = false ∧
     ∃ rest, (runMetrikaTool ⟨"", "", "", "", false⟩ "/e" "GET"
        (NetOutcome.reply 200 none ()) (fun _ => "ok")).1 =
        "Configuration Error: " ++ rest) ∧
    ((direct_get_statistics ⟨"", "", "", "", false⟩ ⟨"2024-01-01", "2024-01-31", "T"⟩
        (NetOutcome.reply 200 none "H")).2 = false ∧
     ∃ rest, (direct_get_statistics ⟨"", "", "", "", false⟩
        ⟨"2024-01-01", "2024-01-31", "T"⟩ (NetOutcome.reply 200 none "H")).1 =
        some ("Configuration Error: " ++ rest)) := by
  refine ⟨?_, ?_, ?_⟩
  · exact spec_c2_missing_token.1 Unit ⟨"", "", "", "", false⟩ _ _ rfl rfl
  · exact spec_c2_missing_token.2.1 Unit ⟨"", "", "", "", false⟩ "/e" "GET" _ _ rfl rfl
  · exact spec_c2_missing_token.2.2 ⟨"", "", "", "", false⟩ _ _ rfl rfl

/-- C7: a Metrika client call with an httpMethod outside
{GET, POST, PUT, DELETE} fails with a ValueError (rendered by the
classifier as a Configuration Error) before any network request is
issued; the embedding is pure, so the client state is unchanged. -/
theorem spec_c7_unsupported_method (α : Type) (c : Credentials)
    (endpoint method : String) (net : NetOutcome α)
    (h : method ∉ (["GET", "POST", "PUT", "DELETE"] : List String)) :
    (metrika_request c endpoint method net).2 = false ∧
    ∃ msg, (metrika_request c endpoint method net).1 = .error (.valueError msg) := by
  simp only [List.mem_cons, List.not_mem_nil, or_false, not_or] at h
  obtain ⟨h1, h2, h3, h4⟩ := h
  unfold metrika_request
  by_cases htok : getMetrikaToken c = ""
  · rw [if_pos htok]
    exact ⟨rfl, _, rfl⟩
  · rw [if_neg htok, if_neg (by simp [h1, h2, h3, h4])]
    exact ⟨rfl, _, rfl⟩

/-- Witness for C7 at method "PATCH" with a configured token and a 200
network outcome. -/
theorem spec_c7_witness :
    "PATCH" ∉ (["GET", "POST", "PUT", "DELETE"] : List String) ∧
    (metrika_request ⟨"", "t", "", "", false⟩ "/e" "PATCH"
       (NetOutcome.reply 200 none ())).2 = false ∧
    ∃ msg, (metrika_request ⟨"", "t", "", "", false⟩ "/e" "PATCH"
       (NetOutcome.reply 200 none ())).1 = .error (.valueError msg) := by
  refine ⟨by decide, ?_, ?_⟩
  · exact (spec_c7_unsupported_method Unit ⟨"", "t", "", "", false⟩ "/e" "PATCH"
      (NetOutcome.reply 200 none ()) (by decide)).1
  · exact (spec_c7_unsupported_method Unit ⟨"", "t", "", "", false⟩ "/e" "PATCH"
      (NetOutcome.reply 200 none ()) (by decide)).2

/-- A text-ad update field that is absent, or blank after whitespace
stripping. -/
def optBlank : Option String → Prop
  | some s => pyStrip s = ""
  | none => True

instance (o : Option String) : Decidable (optBlank o) :=
  match o with
  | some s => inferInstanceAs (Decidable (pyStrip s = ""))
  | none => inferInstanceAs (Decidable True)

/-- C9: when every optional field of the text-ad update input is absent or
empty after whitespace stripping, the operation returns
"No fields specified for update." and issues no network call. -/
theorem spec_c9_update_ad_no_fields (c : Credentials) (p : UpdateTextAdParams)
    (net : NetOutcome (List UpdateResultItem))
    (h1 : optBlank p.title) (h2 : optBlank p.title2)
    (h3 : optBlank p.text) (h4 : optBlank p.href) :
    direct_update_ad c (stripUpdateTextAd p) net =
      ("No fields specified for update.", false) := by
  obtain ⟨ad_id, t1, t2, tx, hr⟩ := p
  unfold direct_update_ad stripUpdateTextAd updateTextAdFields
  cases t1 <;> cases t2 <;> cases tx <;> cases hr <;> simp_all [optBlank]

/-- Witness for C9: a whitespace-only title, an empty href, and absent
title2/text collapse to no updatable fields. -/
theorem spec_c9_witness :
    optBlank (some "   ") ∧ optBlank (some "") ∧
    direct_update_ad ⟨"t", "", "", "", false⟩
      (stripUpdateTextAd ⟨7, some "   ", none, none, some ""⟩)
      (NetOutcome.reply 200 none []) = ("No fields specified for update.", false) := by
  refine ⟨by decide, by decide, ?_⟩
  exact spec_c9_update_ad_no_fields ⟨"t", "", "", "", false⟩
    ⟨7, some "   ", none, none, some ""⟩ (NetOutcome.reply 200 none [])
    (by decide) trivial trivial (by decide)

/-- Model fact: `int(v * 1_000_000)` agrees with the mathematical floor for a
nonnegative value (truncation toward zero and floor coincide there). -/
lemma toMicros_eq_floor (q : ℚ) (hq : 0 ≤ q) : toMicros q = ⌊(q * 1000000 : ℚ)⌋ := by
  unfold toMicros pyIntFrac
  have hnum : 0 ≤ q.num := Rat.num_nonneg.mpr hq
  have hden : (0 : ℤ) < (q.den : ℤ) := by exact_mod_cast q.pos
  rw [Int.tdiv_eq_ediv (by positivity) (le_of_lt hden)]
  have hrepr : (q * 1000000 : ℚ) = ((1000000 * q.num : ℤ) : ℚ) / ((q.den : ℕ) : ℚ) := by
    conv_lhs => rw [← Rat.num_div_den q]
    push_cast
    ring
  rw [hrepr, Rat.floor_intCast_div_natCast]

/-- C3 (amended): for monetary values with at most two decimal places
(v = k/100 with k a positive integer), the micro-unit round-trip renders
exactly the two-decimal formatting of v. -/
theorem spec_c3_round_trip_two_dec (k : ℤ) (hk : 0 < k) :
    renderMoney (toMicros (Rat.divInt k 100)) = formatTwoDec (Rat.divInt k 100) := by
  have hq : (0 : ℚ) ≤ Rat.divInt k 100 := by
    rw [Rat.divInt_eq_div]
    positivity
  have hmicros : toMicros (Rat.divInt k 100) = 10000 * k := by
    rw [toMicros_eq_floor _ hq]
    have : (Rat.divInt k 100 * 1000000 : ℚ) = ((10000 * k : ℤ) : ℚ) := by
      rw [Rat.divInt_eq_div]
      push_cast
      ring
    rw [this, Int.floor_intCast]
  rw [hmicros]
  unfold renderMoney
  congr 1
  rw [Rat.divInt_eq_div, Rat.divInt_eq_div]
  push_cast
  ring

/-- C3 counterexample: at the accepted input v = 1.0050001 the direct
two-decimal display is "1.01", but the micro-unit round-trip truncates to
1005000 micros, which renders as "1.00" — the round-trip does not
reproduce v up to two-decimal rounding. -/
theorem spec_c3_cex :
    formatTwoDec (Rat.divInt 10050001 10000000) = "1.01" ∧
    toMicros (Rat.divInt 10050001 10000000) = 1005000 ∧
    renderMoney (toMicros (Rat.divInt 10050001 10000000)) = "1.00" ∧
    renderMoney (toMicros (Rat.divInt 10050001 10000000)) ≠
      formatTwoDec (Rat.divInt 10050001 10000000) := by
  exact ⟨by decide, by decide, by decide, by decide⟩

/-- Witness for C3 at v = 1.50: micros 1500000, rendered back as "1.50". -/
theorem spec_c3_witness :
    (0 : ℤ) < 150 ∧
    renderMoney (toMicros (Rat.divInt 150 100)) = formatTwoDec (Rat.divInt 150 100) ∧
    toMicros (Rat.divInt 150 100) = 1500000 ∧
    formatTwoDec (Rat.divInt 150 100) = "1.50" := by
  exact ⟨by decide, spec_c3_round_trip_two_dec 150 (by decide), by decide, by decide⟩

/-- Under the success-or-error shape of a vendor result list, both success
collectors count exactly the success items, and the itemized error list
has one line per error item. -/
lemma batch_counts (rs : List ActionResultItem) (h : vendorBatchShape rs) :
    (looseSuccessIds rs).length = successCount rs ∧
    (strictSuccessIds rs).length = successCount rs ∧
    (batchErrors rs).length = rs.length - successCount rs := by
  induction rs with
  | nil => simp [looseSuccessIds, strictSuccessIds, batchErrors, successCount]
  | cons r rs ih =>
    have hr := h r (List.mem_cons_self r rs)
    have hrs : vendorBatchShape rs := fun x hx => h x (List.mem_cons_of_mem r hx)
    obtain ⟨h1, h2, h3⟩ := ih hrs
    have hle : successCount rs ≤ rs.length := List.length_filter_le _ _
    rcases hr with hs | he
    · obtain ⟨ht, hee⟩ : idTruthy r = true ∧ r.errors = [] := by
        simpa [isSuccessItem] using hs
      have e1 : looseSuccessIds (r :: rs) = r.id.getD 0 :: looseSuccessIds rs := by
        simp [looseSuccessIds, List.filterMap_cons, ht]
      have e2 : strictSuccessIds (r :: rs) = r.id.getD 0 :: strictSuccessIds rs := by
        simp [strictSuccessIds, List.filterMap_cons, ht, hee]
      have e3 : successCount (r :: rs) = successCount rs + 1 := by
        simp [successCount, List.filter_cons, hs]
      have e4 : batchErrors (r :: rs) = batchErrors rs := by
        simp [batchErrors, itemErrorLines, hee]
      refine ⟨?_, ?_, ?_⟩
      · rw [e1, List.length_cons, h1, e3]
      · rw [e2, List.length_cons, h2, e3]
      · rw [e4, e3, List.length_cons]
        omega
    · obtain ⟨hid, hlen⟩ : r.id = none ∧ r.errors.length = 1 := by
        simpa [isErrorItem] using he
      have ht : idTruthy r = false := by simp [idTruthy, hid]
      have hsucc : isSuccessItem r = false := by simp [isSuccessItem, ht]
      have hne : r.errors.isEmpty = false := by
        cases herrs : r.errors with
        | nil => rw [herrs] at hlen; simp at hlen
        | cons a t => simp [herrs]
      have hitem : (itemErrorLines r).length = 1 := by
        simp [itemErrorLines, hne, hlen]
      have e1 : looseSuccessIds (r :: rs) = looseSuccessIds rs := by
        simp [looseSuccessIds, List.filterMap_cons, ht]
      have e2 : strictSuccessIds (r :: rs) = strictSuccessIds rs := by
        simp [strictSuccessIds, List.filterMap_cons, ht]
      have e3 : successCount (r :: rs) = successCount rs := by
        simp [successCount, List.filter_cons, hsucc]
      have e4 : (batchErrors (r :: rs)).length = 1 + (batchErrors rs).length := by
        simp [batchErrors, List.flatMap_cons, List.length_append, hitem]
      refine ⟨?_, ?_, ?_⟩
      · rw [e1, h1, e3]
      · rw [e2, h2, e3]
      · rw [e4, e3, List.length_cons]
        omega

/-- C1 (amended): for a vendor result list of N items with K successes
and N−K per-item errors, the five campaign batch operations and the ad
delete/archive/unarchive operations return the literal count K in the
success summary and exactly N−K itemized error lines; the ad suspend and
resume operations return only the success summary with count K and no
itemized error lines. -/
theorem spec_c1_batch_summary (rs : List ActionResultItem)
    (h : vendorBatchShape rs) :
    (∃ errs : List String, errs.length = rs.length - successCount rs ∧
       direct_suspend_campaigns_render rs = errorsBlock
         ("Successfully suspended " ++ toString (successCount rs) ++ " campaign(s).") errs) ∧
    (∃ errs : List String, errs.length = rs.length - successCount rs ∧
       direct_resume_campaigns_render rs = errorsBlock
         ("Successfully resumed " ++ toString (successCount rs) ++ " campaign(s).") errs) ∧
    (∃ errs : List String, errs.length = rs.length - successCount rs ∧
       direct_archive_campaigns_render rs = errorsBlock
         ("Successfully archived " ++ toString (successCount rs) ++ " campaign(s).") errs) ∧
    (∃ errs : List String, errs.length = rs.length - successCount rs ∧
       direct_unarchive_campaigns_render rs = errorsBlock
         ("Successfully unarchived " ++ toString (successCount rs) ++ " campaign(s).") errs) ∧
    (∃ errs : List String, errs.length = rs.length - successCount rs ∧
       direct_delete_campaigns_render rs = errorsBlock
         ("Successfully deleted " ++ toString (successCount rs) ++ " campaign(s).") errs) ∧
    (∃ errs : List String, errs.length = rs.length - successCount rs ∧
       direct_delete_ads_render rs = errorsBlock
         ("Successfully deleted " ++ toString (successCount rs) ++ " ad(s).") errs) ∧
    (∃ errs : List String, errs.length = rs.length - successCount rs ∧
       direct_archive_ads_render rs = errorsBlock
         ("Successfully archived " ++ toString (successCount rs) ++ " ad(s).") errs) ∧
    (∃ errs : List String, errs.length = rs.length - successCount rs ∧
       direct_unarchive_ads_render rs = errorsBlock
         ("Successfully unarchived " ++ toString (successCount rs) ++ " ad(s).") errs) ∧
    direct_suspend_ads_render rs =
      "Successfully suspended " ++ toString (successCount rs) ++ " ad(s)." ∧
    direct_resume_ads_render rs =
      "Successfully resumed " ++ toString (successCount rs) ++ " ad(s)." := by
  obtain ⟨hl, hst, he⟩ := batch_counts rs h
  refine ⟨⟨batchErrors rs, he, ?_⟩, ⟨batchErrors rs, he, ?_⟩, ⟨batchErrors rs, he, ?_⟩,
          ⟨batchErrors rs, he, ?_⟩, ⟨batchErrors rs, he, ?_⟩, ⟨batchErrors rs, he, ?_⟩,
          ⟨batchErrors rs, he, ?_⟩, ⟨batchErrors rs, he, ?_⟩, ?_, ?_⟩
  · unfold direct_suspend_campaigns_render; rw [hl]
  · unfold direct_resume_campaigns_render; rw [hl]
  · unfold direct_archive_campaigns_render; rw [hst]
  · unfold direct_unarchive_campaigns_render; rw [hst]
  · unfold direct_delete_campaigns_render; rw [hst]
  · unfold direct_delete_ads_render; rw [hst]
  · unfold direct_archive_ads_render; rw [hst]
  · unfold direct_unarchive_ads_render; rw [hst]
  · unfold direct_suspend_ads_render; rw [hst]
  · unfold direct_resume_ads_render; rw [hst]

/-- The concrete two-item vendor result list used for the C1
counterexample and witness: one success (Id 1), one per-item error. -/
def batchExample : List ActionResultItem :=
  [⟨some 1, []⟩, ⟨none, [⟨some "bad"⟩]⟩]

/-- C1 counterexample: on a result list with K = 1 success and N−K = 1
per-item error, `direct_suspend_ads` returns the single line
"Successfully suspended 1 ad(s)." — a one-line string with no itemized
error lines (it contains no newline at all), contradicting the claim
that every batch operation itemizes the N−K errors. -/
theorem spec_c1_cex :
    isSuccessItem ⟨some 1, []⟩ = true ∧
    isErrorItem ⟨none, [⟨some "bad"⟩]⟩ = true ∧
    successCount batchExample = 1 ∧
    batchExample.length - successCount batchExample = 1 ∧
    direct_suspend_ads_render batchExample = "Successfully suspended 1 ad(s)." ∧
    ((direct_suspend_ads_render batchExample).data.filter (fun c => c = '\n')).length
      = 0 := by
  exact ⟨by decide, by decide, by decide, by decide, by decide, by decide⟩

/-- Witness for C1 on the concrete two-item result list: the suspend
campaigns operation reports one success and itemizes the one error. -/
theorem spec_c1_witness :
    vendorBatchShape batchExample ∧
    (∃ errs : List String,
       errs.length = batchExample.length - successCount batchExample ∧
       direct_suspend_campaigns_render batchExample = errorsBlock
         ("Successfully suspended " ++ toString (successCount batchExample) ++
          " campaign(s).") errs) ∧
    direct_suspend_campaigns_render batchExample =
      "Successfully suspended 1 campaign(s).\n\nErrors:\n- ID ?: bad" := by
  refine ⟨by decide, ?_, by decide⟩
  exact (spec_c1_batch_summary batchExample (by decide)).1

/-- C4: statistics-report row handling. A 200 body with fewer than two
lines after stripping yields exactly "No data found for the specified
period."; a body whose split is a header plus lines giving 101 data rows
renders exactly 100 table rows plus the trailer "...and 1 more rows";
and the analytics report formatter caps its markdown at 50 rows with the
corresponding "...and N more rows" trailer. -/
theorem spec_c4_statistics_rows :
    (∀ (p : DirectReportInput) (text : String),
       (statLines text).length < 2 →
       formatStatistics200 p text = "No data found for the specified period.") ∧
    (∀ (p : DirectReportInput) (text hdr : String) (rest : List String),
       statLines text = hdr :: rest →
       (statDataRows rest).length = 101 →
       formatStatistics200 p text =
         String.intercalate "\n"
           (statMdHead p (pySplit hdr '\t') ++
            ((statDataRows rest).take 100).map statRowLine ++
            ["\n*...and 1 more rows*"]) ∧
       (((statDataRows rest).take 100).map statRowLine).length = 100) ∧
    (∀ d : ReportData, 50 < d.data.length →
       formatMetrikaReportMarkdown d =
         String.intercalate "\n"
           (reportHead d ++
            ["## Data (" ++ toString d.data.length ++ " rows)"] ++
            (d.data.take 50).map renderReportRow ++
            ["\n*...and " ++ toString (d.data.length - 50) ++ " more rows*"]) ∧
       ((d.data.take 50).map renderReportRow).length = 50) := by
  refine ⟨?_, ?_, ?_⟩
  · intro p text hlt
    unfold formatStatistics200
    rw [if_pos hlt]
  · intro p text hdr rest h1 h2
    cases rest with
    | nil => simp [statDataRows] at h2
    | cons r t =>
      have hnlt : ¬ (statLines text).length < 2 := by rw [h1]; simp
      constructor
      · unfold formatStatistics200
        rw [if_neg hnlt, h1]
        unfold formatStatisticsTable
        simp only [List.headD_cons, List.tail_cons]
        rw [h2]
        norm_num
        rfl
      · simp [List.length_take, h2]
  · intro d hgt
    have hje : d.data.isEmpty = false := by
      cases hd : d.data with
      | nil => rw [hd] at hgt; simp at hgt
      | cons a t => simp
    constructor
    · unfold formatMetrikaReportMarkdown reportDataLines
      rw [hje]
      simp only [Bool.false_eq_true, if_false, if_pos hgt, List.append_assoc]
    · simp only [List.length_map, List.length_take]
      omega

/-- Concrete inputs for the C4 witness: a TSV body with one header line
and 101 identical data lines, a report input, and an analytics report
with 51 data rows. -/
def statTsvExample : String :=
  String.intercalate "\n" ("H" :: List.replicate 101 "1\t2")

def statReportExample : DirectReportInput :=
  ⟨"2024-01-01", "2024-01-31", "CAMPAIGN_PERFORMANCE_REPORT"⟩

def reportRowsExample : ReportData :=
  ⟨⟨none, none, [], []⟩, [], List.replicate 51 ⟨[], []⟩⟩

/-- Witness for C4: the header-only body yields the no-data sentence; the
101-row body renders 100 rows plus the "...and 1 more rows" trailer; the
51-row analytics report renders 50 rows plus its trailer. -/
theorem spec_c4_witness :
    ((statLines "OnlyHeader").length < 2 ∧
     formatStatistics200 statReportExample "OnlyHeader" =
       "No data found for the specified period.") ∧
    (statLines statTsvExample = "H" :: List.replicate 101 "1\t2" ∧
     (statDataRows (List.replicate 101 "1\t2")).length = 101 ∧
     formatStatistics200 statReportExample statTsvExample =
       String.intercalate "\n"
         (statMdHead statReportExample (pySplit "H" '\t') ++
          ((statDataRows (List.replicate 101 "1\t2")).take 100).map statRowLine ++
          ["\n*...and 1 more rows*"]) ∧
     (((statDataRows (List.replicate 101 "1\t2")).take 100).map statRowLine).length
       = 100) ∧
    (50 < reportRowsExample.data.length ∧
     ((reportRowsExample.data.take 50).map renderReportRow).length = 50) := by
  refine ⟨⟨by decide, ?_⟩, ⟨by decide, by decide, ?_, ?_⟩, ⟨by decide, ?_⟩⟩
  · exact spec_c4_statistics_rows.1 statReportExample "OnlyHeader" (by decide)
  · exact (spec_c4_statistics_rows.2.1 statReportExample statTsvExample "H"
      (List.replicate 101 "1\t2") (by decide) (by decide)).1
  · exact (spec_c4_statistics_rows.2.1 statReportExample statTsvExample "H"
      (List.replicate 101 "1\t2") (by decide) (by decide)).2
  · exact (spec_c4_statistics_rows.2.2 reportRowsExample (by decide)).2
